import Mathlib

/-!
Verification of the input-validation and hybrid-dispatch core of the
AlphaGenome UI repository (`ui_components.py`, `api_client.py`).

Python strings are embedded as `List Char` (ASCII scope: every input the
source ever receives through its UI layer is ASCII text).  Python string
operations used by the source (`strip`, `split`, `replace`, `upper`,
`lower`, `in`, `int(...)`, f-string thousands formatting) are embedded as
executable functions below, and the validators / dispatcher are direct
translations of the Python bodies.
-/

/-- ASCII whitespace recognized by Python's `str.strip()` / `str.split()`
(space, tab, newline, carriage return, vertical tab, form feed). -/
def pyIsSpace (c : Char) : Bool :=
  c = ' ' || c = '\t' || c = '\n' || c = '\r' || c = '\x0B' || c = '\x0C'

/-- Python `str.strip()`: drop leading and trailing whitespace. -/
def pyStrip (l : List Char) : List Char :=
  ((l.dropWhile pyIsSpace).reverse.dropWhile pyIsSpace).reverse

/-- Python `str.lower()` (ASCII). -/
def pyLower (l : List Char) : List Char := l.map Char.toLower

/-- Python `str.upper()` (ASCII). -/
def pyUpper (l : List Char) : List Char := l.map Char.toUpper

/-- Python `c in s` for a single character. -/
def pyContains (l : List Char) (c : Char) : Bool := l.any (fun d => d = c)

/-- Python `s.split(sep)` for a one-character separator: splits at every
occurrence, keeping empty segments. -/
def splitOn (sep : Char) : List Char → List (List Char)
  | [] => [[]]
  | c :: cs =>
    if c = sep then [] :: splitOn sep cs
    else
      match splitOn sep cs with
      | [] => [[c]]
      | h :: t => (c :: h) :: t

/-- Python `s.split(sep, 1)`: split at the first occurrence only. -/
def splitFirst (sep : Char) : List Char → List (List Char)
  | [] => [[]]
  | c :: cs =>
    if c = sep then [[], cs]
    else
      match splitFirst sep cs with
      | [] => [[c]]
      | h :: t => (c :: h) :: t

/-- Python `s.replace(old, '')` for a one-character `old`. -/
def pyRemoveChar (c : Char) (l : List Char) : List Char := l.filter (fun d => d ≠ c)

/-- ASCII decimal digit test. -/
def isDigitChar (c : Char) : Bool := 48 ≤ c.toNat && c.toNat ≤ 57

/-- Numeric value of a decimal digit character. -/
def digitVal (c : Char) : Nat := c.toNat - 48

/-- Value of a decimal digit string (most significant digit first). -/
def digitsVal (l : List Char) : Nat := l.foldl (fun a c => 10 * a + digitVal c) 0

/-- Digit tail of Python `int(...)` parsing: after the first digit,
digits may be separated by single underscores. -/
def pyIntDigits (acc : Nat) : List Char → Option Nat
  | [] => some acc
  | c :: rest =>
    if c = '_' then
      match rest with
      | c2 :: rest2 => if isDigitChar c2 then pyIntDigits (10 * acc + digitVal c2) rest2 else none
      | [] => none
    else if isDigitChar c then pyIntDigits (10 * acc + digitVal c) rest
    else none

/-- Python `int(...)` after sign: the first character must be a digit. -/
def pyIntStart : List Char → Option Nat
  | [] => none
  | c :: rest => if isDigitChar c then pyIntDigits (digitVal c) rest else none

/-- Python `int(s)` on an ASCII string: strips whitespace, accepts an
optional sign, then decimal digits with optional single underscores
between digits; `none` models the `ValueError`. -/
def pyInt (s : List Char) : Option Int :=
  match pyStrip s with
  | [] => none
  | c :: rest =>
    if c = '+' then (pyIntStart rest).map Int.ofNat
    else if c = '-' then (pyIntStart rest).map (fun n => -(n : Int))
    else (pyIntStart (c :: rest)).map Int.ofNat

/-- Insert `','` after every group of three characters, on a reversed
digit list (least significant digit first); the counter is the number of
characters still allowed in the current group. -/
def commaRevAux : List Char → Nat → List Char
  | [], _ => []
  | c :: rest, 0 => ',' :: c :: commaRevAux rest 2
  | c :: rest, k + 1 => c :: commaRevAux rest k

/-- Group a reversed digit list in threes, separated by `','`. -/
def commaRev (l : List Char) : List Char := commaRevAux l 3

/-- Python `f"{n:,}"` for a natural number: decimal digits with
thousands separators. -/
def commaNat (n : Nat) : List Char := (commaRev (Nat.toDigits 10 n).reverse).reverse

/-- Python `f"{i:,}"` for an integer. -/
def commaInt (i : Int) : List Char :=
  if i < 0 then '-' :: commaNat i.natAbs else commaNat i.natAbs

/-- Python `str(n)` for a natural number. -/
def natStr (n : Nat) : List Char := Nat.toDigits 10 n

/-- Python substring test `needle in hay`. -/
def strContains : List Char → List Char → Bool
  | [], needle => needle.isEmpty
  | hay@(_ :: t), needle => needle.isPrefixOf hay || strContains t needle

/-- ASCII apostrophe, used when embedding Python messages that quote text. -/
def apos : Char := Char.ofNat 39

/-- Lexicographic (code-point) order used by Python `sorted` on strings. -/
def strLe : List Char → List Char → Bool
  | [], _ => true
  | _ :: _, [] => false
  | a :: as, b :: bs => if a = b then strLe as bs else decide (a < b)

/-- Python `', '.join(sorted(set(l)))` over a set of characters:
de-duplicate, sort ascending, join with a comma and space. -/
def sortedJoinChars (l : List Char) : List Char :=
  List.intercalate (", ".data) ((l.dedup.mergeSort (fun a b => a ≤ b)).map (fun c => [c]))

/-- One-decimal rounding of the fraction `num/den` scaled by 10, round
half to even (the rounding CPython's `f"{x:.1f}"` applies); `den ≠ 0` at
every use site. -/
def round1dec (num den : Nat) : Nat :=
  let q := (10 * num) / den
  let r := (10 * num) % den
  if 2 * r > den then q + 1 else if 2 * r < den then q else if q % 2 = 0 then q else q + 1

/-- Python `f"{n_count / length * 100:.1f}"`.  The source computes the
percentage in double precision; for `length ≤ 1,000,000` the exact value
is never within double rounding error of a representable tie, so exact
rational rounding gives the same text.  No claim depends on this text. -/
def pctFmt (ncount length : Nat) : List Char :=
  let t := round1dec (100 * ncount) length
  natStr (t / 10) ++ '.' :: [Char.ofNat (48 + t % 10)]

/-- Token part of the chromosome regex `([1-9]|1[0-9]|2[0-2]|X|Y|MT?)`,
applied to the lower-cased text; the digit ranges are written by code
point (`[1-9]` is 49-57, `[0-9]` is 48-57, `[0-2]` is 48-50). -/
def chromBody (l : List Char) : Bool :=
  match l with
  | [c] => (49 ≤ c.toNat && c.toNat ≤ 57) || c = 'x' || c = 'y' || c = 'm'
  | [c1, c2] =>
    (c1 = '1' && isDigitChar c2) || (c1 = '2' && 48 ≤ c2.toNat && c2.toNat ≤ 50)
      || (c1 = 'm' && c2 = 't')
  | _ => false

/-- `re.match(r'^(chr)?([1-9]|1[0-9]|2[0-2]|X|Y|MT?)$', s, re.IGNORECASE)`
as a whole-string match: either the token alone, or a `chr` prefix
followed by the token.  (Python's `$` would also accept one trailing
newline, but both call sites apply `.strip()` first, so that case is
unreachable in the source.) -/
def chromRegexMatch (l : List Char) : Bool :=
  let ls := pyLower l
  chromBody ls || ((ls.take 3 == ['c', 'h', 'r']) && chromBody (ls.drop 3))

/-- Lower-cased ontology prefixes of `^(UBERON|CL|GO|SO|CHEBI|MONDO):[0-9]{7,}$`. -/
def ontPrefixes : List (List Char) :=
  [("uberon".data), ("cl".data), ("go".data), ("so".data), ("chebi".data), ("mondo".data)]

/-- `re.match(ontology_pattern, term, re.IGNORECASE)` as a whole-string
match (the term is stripped before matching, so the trailing-newline
case of `$` is unreachable in the source). -/
def ontologyRegexMatch (t : List Char) : Bool :=
  let lt := pyLower t
  ontPrefixes.any (fun p =>
    (lt.take p.length == p) &&
    (match lt.drop p.length with
     | ':' :: rest => decide (rest.length ≥ 7) && rest.all isDigitChar
     | _ => false))

/-- Embedding of `alphagenome.data.genome.Interval` as constructed by the
validators; `stop` embeds the Python attribute `end` (a Lean keyword). -/
structure GInterval where
  chromosome : List Char
  start : Int
  stop : Int
deriving DecidableEq

/-- `Interval.width = end - start` (the SDK property the UI displays;
the spec's data model states the same equation). -/
def GInterval.width (iv : GInterval) : Int := iv.stop - iv.start

/-- Embedding of `alphagenome.data.genome.Variant`. -/
structure GVariant where
  chromosome : List Char
  position : Int
  reference_bases : List Char
  alternate_bases : List Char
deriving DecidableEq

/-- `'Invalid format. Use: chr:start-end (e.g., chr22:1000-2000)'`. -/
def intervalFormatMsg : List Char := "Invalid format. Use: chr:start-end (e.g., chr22:1000-2000)".data

/-- `str(e)` of the `ValueError` raised by `int(...)`; the `repr`
escaping of quotes and backslashes inside the offending text is not
modelled (no claim depends on it). -/
def invalidLiteralMsg (l : List Char) : List Char :=
  ("invalid literal for int() with base 10: ".data) ++ apos :: (l ++ [apos])

/-- `s.strip().replace(',', '').replace(' ', '')` (ui_components.py:128). -/
def cleanNum (l : List Char) : List Char := pyRemoveChar ' ' (pyRemoveChar ',' (pyStrip l))

/-- `f"Invalid chromosome '{chromosome}'. Use format: chr1-22, chrX, chrY, chrMT"`. -/
def invalidChromMsg (c : List Char) : List Char :=
  ("Invalid chromosome ".data) ++ apos :: (c ++ apos :: (". Use format: chr1-22, chrX, chrY, chrMT".data))

/-- ui_components.py:122-124 and 197-199: prepend `"chr"` unless
`chromosome.lower().startswith('chr')`. -/
def normalizeChrom (c : List Char) : List Char :=
  if (['c', 'h', 'r'] : List Char).isPrefixOf (pyLower c) then c else 'c' :: 'h' :: 'r' :: c

/-- ui_components.py:133-156: coordinate checks and interval
construction of `InputValidator.validate_interval`. -/
def checkCoordinates (chromosome : List Char) (start stop : Int) :
    Bool × List Char × Option GInterval :=
  if start < 0 then (false, ("Start position cannot be negative".data), none)
  else if stop < 0 then (false, ("End position cannot be negative".data), none)
  else if stop ≤ start then
    (false, ("End position (".data) ++ commaInt stop ++ (") must be greater than start position (".data) ++ commaInt start ++ (")".data), none)
  else
    let width := stop - start
    if width > 2000000 then
      (false, ("Interval too large (".data) ++ commaInt width ++ (" bp). Maximum 2,000,000 base pairs allowed. Try a smaller region for detailed analysis.".data), none)
    else if width < 100 then
      (false, ("Interval too small (".data) ++ commaInt width ++ (" bp). Minimum 100 base pairs required.".data), none)
    else if start > 250000000 || stop > 250000000 then
      (false, ("Position too large. Maximum position is ".data) ++ commaNat 250000000, none)
    else
      (true, ("Valid interval ".data) ++ chromosome ++ (":".data) ++ commaInt start ++ ("-".data) ++ commaInt stop ++ (" (".data) ++ commaInt width ++ (" bp)".data),
       some ⟨chromosome, start, stop⟩)

/-- `InputValidator.validate_interval` (ui_components.py:81-159).  The
`isinstance` branch is unrepresentable (inputs are strings by type), and
nothing inside the `try` block other than `int(...)` can raise, so the
outer `except` handler is unreachable. -/
def validate_interval (interval_str : List Char) : Bool × List Char × Option GInterval :=
  if interval_str.isEmpty then (false, ("Interval cannot be empty".data), none)
  else
    let s := pyStrip interval_str
    if !(pyContains s ':') || !(pyContains s '-') then (false, intervalFormatMsg, none)
    else
      match splitOn ':' s with
      | [chrom_part, pos_part] =>
        if !(pyContains pos_part '-') then
          (false, ("Invalid format. Missing ".data) ++ apos :: '-' :: apos :: (" between start and end positions".data), none)
        else
          match splitOn '-' pos_part with
          | [start_str, end_str] =>
            let chromosome := pyStrip chrom_part
            if chromosome.isEmpty then (false, ("Chromosome cannot be empty".data), none)
            else if !(chromRegexMatch chromosome) then (false, invalidChromMsg chromosome, none)
            else
              let chromosome := normalizeChrom chromosome
              match pyInt (cleanNum start_str) with
              | none => (false, ("Invalid position format: ".data) ++ invalidLiteralMsg (cleanNum start_str), none)
              | some start =>
                match pyInt (cleanNum end_str) with
                | none => (false, ("Invalid position format: ".data) ++ invalidLiteralMsg (cleanNum end_str), none)
                | some stop => checkCoordinates chromosome start stop
          | _ => (false, intervalFormatMsg, none)
      | _ => (false, intervalFormatMsg, none)

/-- The valid DNA alphabet `set('ACGTN')`. -/
def dnaValidChars : List Char := ['A', 'C', 'G', 'T', 'N']

/-- `InputValidator.validate_dna_sequence` (ui_components.py:44-78).
`sequence.upper().strip()` followed by `''.join(sequence.split())`
removes every whitespace character and upper-cases.  The final N-content
test is `n_count / len * 100 > 50` in double precision; for
`len ≤ 1,000,000` the exact rational comparison `100 * n_count > 50 * len`
is equivalent (the exact value is at least `5e-5` away from 50 whenever
it is not exactly 50, and 50 is reached only at exactly half, which the
doubles represent exactly). -/
def validate_dna_sequence (sequence : List Char) : Bool × List Char :=
  if sequence.isEmpty then (false, ("Sequence cannot be empty".data))
  else
    let s := (pyStrip (pyUpper sequence)).filter (fun c => !(pyIsSpace c))
    if s.isEmpty then (false, ("Sequence cannot be empty after removing whitespace".data))
    else
      let invalid_chars := s.filter (fun c => !(dnaValidChars.contains c))
      if !invalid_chars.isEmpty then
        (false, ("Invalid characters found: ".data) ++ sortedJoinChars invalid_chars ++ (". Only A, C, G, T, N allowed.".data))
      else if s.length < 10 then (false, ("Sequence too short. Minimum 10 base pairs required.".data))
      else if s.length > 1000000 then
        (false, ("Sequence too long (".data) ++ commaNat s.length ++ (" bp). Maximum 1,000,000 base pairs allowed.".data))
      else
        if 100 * s.count 'N' > 50 * s.length then
          (false, ("Too many N bases (".data) ++ pctFmt (s.count 'N') s.length ++ ("%). Maximum 50% N content allowed.".data))
        else
          (true, ("Valid DNA sequence (".data) ++ commaNat s.length ++ (" bp, ".data) ++ pctFmt (s.count 'N') s.length ++ ("% N content)".data))

/-- `InputValidator.validate_api_key` (ui_components.py:19-41). -/
def validate_api_key (api_key : List Char) : Bool × List Char :=
  if api_key.isEmpty then (false, ("API key cannot be empty".data))
  else
    let k := pyStrip api_key
    if !(("AIza".data).isPrefixOf k) then
      (false, ("Invalid API key format. Google API keys should start with ".data) ++ apos :: (("AIza".data) ++ [apos]))
    else if k.length < 35 then (false, ("API key too short. Expected length is typically 39 characters".data))
    else if k.length > 45 then (false, ("API key too long. Expected length is typically 39 characters".data))
    else if !(k.all (fun c => c.isAlphanum || c = '_' || c = '-')) then
      (false, ("API key contains invalid characters. Only alphanumeric, hyphens, and underscores allowed".data))
    else (true, ("API key format appears valid".data))

/-- ui_components.py:248-256: variant classification. -/
def variantType (ref alt : List Char) : List Char :=
  if ref.length = 1 && alt.length = 1 then ("SNV".data)
  else if ref.length > alt.length then ("deletion".data)
  else if ref.length < alt.length then ("insertion".data)
  else ("complex".data)

/-- ui_components.py:227-265: the checks on the already stripped and
upper-cased alleles, the classification, and the construction of the
variant.  The source binds `invalid_ref`/`invalid_alt` to the offending
character sets once; here the filter expression is repeated verbatim,
which is observationally identical. -/
def variantAlleleChecks (chromosome : List Char) (position : Int) (ref alt : List Char) :
    Bool × List Char × Option GVariant :=
  if ref.isEmpty then (false, ("Reference allele cannot be empty".data), none)
  else if alt.isEmpty then (false, ("Alternate allele cannot be empty".data), none)
  else if !(ref.filter (fun c => !(dnaValidChars.contains c))).isEmpty then
    (false, ("Invalid characters in reference allele: ".data)
      ++ sortedJoinChars (ref.filter (fun c => !(dnaValidChars.contains c))), none)
  else if !(alt.filter (fun c => !(dnaValidChars.contains c))).isEmpty then
    (false, ("Invalid characters in alternate allele: ".data)
      ++ sortedJoinChars (alt.filter (fun c => !(dnaValidChars.contains c))), none)
  else if ref.length > 100 || alt.length > 100 then
    (false, ("Alleles too long. Maximum 100 base pairs per allele".data), none)
  else
    (true, ("Valid ".data) ++ variantType ref alt ++ (": ".data) ++ chromosome ++ (":".data)
       ++ commaInt position ++ (":".data) ++ ref ++ (">".data) ++ alt,
     some ⟨chromosome, position, ref, alt⟩)

/-- ui_components.py:215-225: split the allele field on the first `>`
(`alleles.split('>', 1)`), strip and upper-case both sides. -/
def variantAlleles (chromosome : List Char) (position : Int) (alleles : List Char) :
    Bool × List Char × Option GVariant :=
  if !(pyContains alleles '>') then
    (false, ("Invalid allele format. Use: ref>alt (e.g., A>T)".data), none)
  else
    match splitFirst '>' alleles with
    | [r0, a0] =>
      variantAlleleChecks chromosome position (pyUpper (pyStrip r0)) (pyUpper (pyStrip a0))
    | _ => (false, ("Invalid allele format. Use: ref>alt (e.g., A>T)".data), none)

/-- ui_components.py:201-213: position parsing
(`int(position_str.replace(',', '').replace(' ', ''))`, the inner
`except ValueError` branch) and range checks. -/
def variantPosition (chromosome : List Char) (position_str alleles : List Char) :
    Bool × List Char × Option GVariant :=
  match pyInt (pyRemoveChar ' ' (pyRemoveChar ',' position_str)) with
  | none =>
    (false, ("Invalid position ".data)
      ++ apos :: (position_str ++ apos :: (". Must be a positive integer".data)), none)
  | some position =>
    if position < 1 then
      (false, ("Position must be positive (1-based coordinate system)".data), none)
    else if position > 250000000 then
      (false, ("Position too large (".data) ++ commaInt position
        ++ ("). Maximum position is ".data) ++ commaNat 250000000, none)
    else variantAlleles chromosome position alleles

/-- `InputValidator.validate_variant` (ui_components.py:162-268), with
the sequential blocks of the body split into the stage functions above.
The `isinstance` branch is unrepresentable (inputs are strings by type),
and the outer `except` handler is unreachable: only `int(...)` can raise
inside the `try`, and it has its own handler (`variantPosition`).  The
source binds `chromosome = parts[0].strip()` once; here `pyStrip p0` is
repeated verbatim. -/
def validate_variant (variant_str : List Char) : Bool × List Char × Option GVariant :=
  if variant_str.isEmpty then (false, ("Variant cannot be empty".data), none)
  else
    let s := pyStrip variant_str
    if !(pyContains s ':') || !(pyContains s '>') then
      (false, ("Invalid format. Use: chr:pos:ref>alt (e.g., chr22:1000:A>T)".data), none)
    else
      match splitOn ':' s with
      | p0 :: p1 :: p2 :: rest =>
        let allele_field := if rest.isEmpty then p2 else List.intercalate [':'] (p2 :: rest)
        if (pyStrip p0).isEmpty then (false, ("Chromosome cannot be empty".data), none)
        else if !(chromRegexMatch (pyStrip p0)) then
          (false, invalidChromMsg (pyStrip p0), none)
        else
          variantPosition (normalizeChrom (pyStrip p0)) (pyStrip p1) (pyStrip allele_field)
      | _ => (false, ("Invalid format. Use: chr:pos:ref>alt".data), none)

/-- `InputValidator.validate_ontology_terms` (ui_components.py:271-307).
The `isinstance` branches (non-list input, non-string element) are
unrepresentable in the typed embedding. -/
def validate_ontology_terms (terms : List (List Char)) : Bool × List Char × List (List Char) :=
  if terms.isEmpty then (false, ("At least one ontology term is required".data), [])
  else
    let step := fun (acc : List (List Char) × List (List Char)) (term : List Char) =>
      let t := pyStrip term
      if t.isEmpty then (acc.1, acc.2 ++ [("Empty term".data)])
      else if ontologyRegexMatch t then (acc.1 ++ [t], acc.2)
      else (acc.1, acc.2 ++ [("Invalid format: ".data) ++ t])
    let r := terms.foldl step ([], [])
    if !r.2.isEmpty then
      (false, ("Invalid ontology terms: ".data) ++ List.intercalate (", ".data) r.2, r.1)
    else if r.1.length > 10 then
      (false, ("Too many ontology terms (".data) ++ natStr r.1.length ++ ("). Maximum 10 allowed".data), r.1)
    else (true, ("Valid ontology terms (".data) ++ natStr r.1.length ++ (" terms)".data), r.1)

/-- The closed set `valid_output_types` (ui_components.py:319-322). -/
def validOutputTypes : List (List Char) :=
  [("RNA_SEQ".data), ("ATAC_SEQ".data), ("CHIP_SEQ".data), ("CAGE".data), ("DNASE".data),
   ("H3K27AC".data), ("H3K27ME3".data), ("H3K36ME3".data), ("H3K4ME1".data), ("H3K4ME3".data),
   ("H3K9ME3".data), ("HISTONE_MARKS".data), ("CONTACT_MAP".data)]

/-- `InputValidator.validate_output_types` (ui_components.py:310-341). -/
def validate_output_types (output_types : List (List Char)) : Bool × List Char × List (List Char) :=
  if output_types.isEmpty then (false, ("At least one output type is required".data), [])
  else
    let step := fun (acc : List (List Char) × List (List Char)) (ot : List Char) =>
      let t := pyUpper (pyStrip ot)
      if validOutputTypes.any (fun v => v == t) then (acc.1 ++ [t], acc.2)
      else (acc.1, acc.2 ++ [t])
    let r := output_types.foldl step ([], [])
    if !r.2.isEmpty then
      (false, ("Invalid output types: ".data) ++ List.intercalate (", ".data) r.2 ++ (". Valid types: ".data) ++ List.intercalate (", ".data) (validOutputTypes.mergeSort strLe), r.1)
    else (true, ("Valid output types (".data) ++ natStr r.1.length ++ (" types)".data), r.1)

/-- `'❌ **Authentication Error**: ...'` (ui_components.py:380). -/
def authErrorMsg : List Char :=
  "❌ **Authentication Error**: Invalid API key. Please check your AlphaGenome API key.".data

/-- `'❌ **Quota Exceeded**: ...'` (ui_components.py:383). -/
def quotaErrorMsg : List Char :=
  "❌ **Quota Exceeded**: You have exceeded your API quota. Please try again later.".data

/-- Prefix of `f"❌ **Invalid Request**: {error_str}"` (ui_components.py:386). -/
def invalidRequestPrefix : List Char := "❌ **Invalid Request**: ".data

/-- `'❌ **Service Unavailable**: ...'` (ui_components.py:389). -/
def unavailableMsg : List Char :=
  "❌ **Service Unavailable**: AlphaGenome API is temporarily unavailable. Please try again later.".data

/-- `'❌ **Timeout Error**: ...'` (ui_components.py:392). -/
def timeoutErrorMsg : List Char :=
  "❌ **Timeout Error**: Request took too long. Try with a smaller sequence or interval.".data

/-- `'❌ **Resource Exhausted**: ...'` (ui_components.py:395). -/
def resourceMsg : List Char :=
  "❌ **Resource Exhausted**: Server is overloaded. Please try again later.".data

/-- Prefix of `f"❌ **API Error**: {error_str}"` (ui_components.py:398). -/
def apiErrorPrefix : List Char := "❌ **API Error**: ".data

/-- `APIValidator.handle_api_error` (ui_components.py:373-398).  Note:
every marker except `"timeout"` is tested against the raw error text;
only `"timeout"` is tested against `error_str.lower()`. -/
def handle_api_error (error_str : List Char) : List Char :=
  if strContains error_str ("PERMISSION_DENIED".data) || strContains error_str ("401".data) then authErrorMsg
  else if strContains error_str ("QUOTA_EXCEEDED".data) || strContains error_str ("429".data) then quotaErrorMsg
  else if strContains error_str ("INVALID_ARGUMENT".data) || strContains error_str ("400".data) then invalidRequestPrefix ++ error_str
  else if strContains error_str ("UNAVAILABLE".data) || strContains error_str ("503".data) then unavailableMsg
  else if strContains error_str ("DEADLINE_EXCEEDED".data) || strContains (pyLower error_str) ("timeout".data) then timeoutErrorMsg
  else if strContains error_str ("RESOURCE_EXHAUSTED".data) then resourceMsg
  else apiErrorPrefix ++ error_str

/-- `APIResponse` (api_client.py:30-37), polymorphic in the payload type
(`data` is an arbitrary JSON-like mapping) and in the clock type
(`response_time` is a float; no claim reasons about its value). -/
structure APIResponse (Data Time : Type) where
  success : Bool
  data : Option Data
  error : Option (List Char)
  status_code : Option Int
  response_time : Option Time

/-- Python f-string rendering of an `Optional[str]` (`None` prints as
`"None"`), as used when `rest_response.error` is interpolated. -/
def optErrStr (o : Option (List Char)) : List Char :=
  match o with
  | some e => e
  | none => "None".data

/-- api_client.py:217: `start_pos = max(1, position - interval_size // 2)`
(`//` is Python floor division, `Int.fdiv`). -/
def hybridStartPos (position interval_size : Int) : Int :=
  max 1 (position - Int.fdiv interval_size 2)

/-- api_client.py:218: `end_pos = position + interval_size // 2`. -/
def hybridEndPos (position interval_size : Int) : Int :=
  position + Int.fdiv interval_size 2

/-- api_client.py:220-224: the interval handed to the SDK fallback. -/
def hybridInterval (chromosome : List Char) (position interval_size : Int) : GInterval :=
  ⟨chromosome, hybridStartPos position interval_size, hybridEndPos position interval_size⟩

/-- The secondary (SDK) transport contract:
`predict_variant(interval, variant, ontology_terms, requested_outputs)`,
which may raise (`Except.error` carries `str(e)`). -/
def SdkPredict (R : Type) : Type :=
  GInterval → GVariant → List (List Char) → List (List Char) → Except (List Char) R

/-- `EnhancedAlphaGenomeClient.predict_variant_hybrid`
(api_client.py:199-259).  Effects are made explicit: `rest_response` is
the already-awaited result of the REST attempt
(`predict_variant_rest`), `sdk_client` is the optional secondary
transport (`None` when `dna_client.create` failed in `__init__`), and
`mkSdkData` models building the
`{"prediction": "SDK_RESULT", "reference": ..., "alternate": ..., "method": "SDK"}`
dict from the opaque SDK result. -/
def predict_variant_hybrid {Data Time R : Type}
    (rest_response : APIResponse Data Time)
    (sdk_client : Option (SdkPredict R))
    (mkSdkData : R → Data)
    (chromosome : List Char) (position : Int) (ref alt : List Char)
    (interval_size : Int) : APIResponse Data Time :=
  if rest_response.success then rest_response
  else
    match sdk_client with
    | some sdk =>
      let interval := hybridInterval chromosome position interval_size
      let variant : GVariant := ⟨chromosome, position, ref, alt⟩
      match sdk interval variant [("UBERON:0001157".data)] [("RNA_SEQ".data)] with
      | Except.ok r => ⟨true, some (mkSdkData r), none, none, none⟩
      | Except.error e =>
        ⟨false, none,
         some (("Both REST API and SDK failed. REST: ".data) ++ optErrStr rest_response.error ++ ((", SDK: ".data) ++ e)),
         none, none⟩
    | none => rest_response

/-- The lower-case characters that can occur in a string accepted by the
chromosome regex. -/
def goodLower (d : Char) : Bool :=
  (48 ≤ d.toNat && d.toNat ≤ 57) || d = 'c' || d = 'h' || d = 'r' || d = 'x' || d = 'y'
    || d = 'm' || d = 't'


/-- The property "the chromosome string carries the prefix `chr`
(case-insensitively) exactly once". -/
def singleChrPrefix (l : List Char) : Prop :=
  (pyLower l).take 3 = ['c', 'h', 'r'] ∧ ((pyLower l).drop 3).take 3 ≠ ['c', 'h', 'r']


/-- Authentication markers, as substrings of the raw error text. -/
def authMarker (e : List Char) : Prop :=
  ("PERMISSION_DENIED".data) <:+: e ∨ ("401".data) <:+: e

/-- Quota markers, as substrings of the raw error text. -/
def quotaMarker (e : List Char) : Prop :=
  ("QUOTA_EXCEEDED".data) <:+: e ∨ ("429".data) <:+: e

/-- Bad-request markers, as substrings of the raw error text. -/
def invalidMarker (e : List Char) : Prop :=
  ("INVALID_ARGUMENT".data) <:+: e ∨ ("400".data) <:+: e

/-- Availability markers, as substrings of the raw error text. -/
def unavailMarker (e : List Char) : Prop :=
  ("UNAVAILABLE".data) <:+: e ∨ ("503".data) <:+: e

/-- Timeout markers: `DEADLINE_EXCEEDED` in the raw text, or `timeout`
in the lower-cased text (the only lower-cased test in the source). -/
def timeoutMarker (e : List Char) : Prop :=
  ("DEADLINE_EXCEEDED".data) <:+: e ∨ ("timeout".data) <:+: pyLower e

/-- Resource markers, as substrings of the raw error text. -/
def resourceMarker (e : List Char) : Prop :=
  ("RESOURCE_EXHAUSTED".data) <:+: e


/-! ### Helper lemmas about the embedded string operations -/

theorem dropWhile_eq_self_of {p : Char → Bool} {l : List Char}
    (h : ∀ c ∈ l, p c = false) : l.dropWhile p = l := by
  cases l with
  | nil => rfl
  | cons a t => simp [List.dropWhile_cons, h a (List.mem_cons_self a t)]

theorem pyStrip_eq_self {l : List Char} (h : ∀ c ∈ l, pyIsSpace c = false) :
    pyStrip l = l := by
  unfold pyStrip
  rw [dropWhile_eq_self_of h,
    dropWhile_eq_self_of (fun c hc => h c (List.mem_reverse.mp hc)),
    List.reverse_reverse]

theorem splitOn_of_forall_ne {sep : Char} {l : List Char}
    (h : ∀ c ∈ l, c ≠ sep) : splitOn sep l = [l] := by
  induction l with
  | nil => rfl
  | cons c cs ih =>
    rw [splitOn, if_neg (h c (List.mem_cons_self c cs))]
    rw [ih (fun d hd => h d (List.mem_cons_of_mem c hd))]

theorem splitOn_append {sep : Char} {a b : List Char}
    (h : ∀ c ∈ a, c ≠ sep) : splitOn sep (a ++ sep :: b) = a :: splitOn sep b := by
  induction a with
  | nil => simp [splitOn]
  | cons c cs ih =>
    rw [List.cons_append, splitOn, if_neg (h c (List.mem_cons_self c cs))]
    rw [ih (fun d hd => h d (List.mem_cons_of_mem c hd))]

theorem splitFirst_append {sep : Char} {a b : List Char}
    (h : ∀ c ∈ a, c ≠ sep) : splitFirst sep (a ++ sep :: b) = [a, b] := by
  induction a with
  | nil => simp [splitFirst]
  | cons c cs ih =>
    rw [List.cons_append, splitFirst, if_neg (h c (List.mem_cons_self c cs))]
    rw [ih (fun d hd => h d (List.mem_cons_of_mem c hd))]

theorem pyIntDigits_of_digits {l : List Char} (h : ∀ c ∈ l, isDigitChar c = true)
    (acc : Nat) :
    pyIntDigits acc l = some (l.foldl (fun a c => 10 * a + digitVal c) acc) := by
  induction l generalizing acc with
  | nil => rfl
  | cons c rest ih =>
    have hc := h c (List.mem_cons_self c rest)
    have hne : c ≠ '_' := by
      intro e
      rw [e] at hc
      exact absurd hc (by decide)
    rw [pyIntDigits.eq_def]
    simp only [if_neg hne, if_pos hc, List.foldl_cons]
    exact ih (fun d hd => h d (List.mem_cons_of_mem c hd)) _

theorem digit_not_space {c : Char} (h : isDigitChar c = true) : pyIsSpace c = false := by
  have hb : 48 ≤ c.toNat ∧ c.toNat ≤ 57 := by simpa [isDigitChar] using h
  by_contra hs
  have hs' : pyIsSpace c = true := by
    cases e : pyIsSpace c
    · exact absurd e hs
    · rfl
  simp only [pyIsSpace, Bool.or_eq_true, decide_eq_true_eq] at hs'
  rcases hs' with ((((e | e) | e) | e) | e) | e <;> rw [e] at hb <;> revert hb <;> decide

theorem char_ne_of_toNat_ne {c d : Char} (h : c.toNat ≠ d.toNat) : c ≠ d :=
  fun e => h (congrArg Char.toNat e)

theorem pyInt_of_digits {l : List Char} (hne : l ≠ [])
    (h : ∀ c ∈ l, isDigitChar c = true) :
    pyInt l = some (Int.ofNat (digitsVal l)) := by
  obtain ⟨c, rest, rfl⟩ := List.exists_cons_of_ne_nil hne
  have hc := h c (List.mem_cons_self c rest)
  have hb : 48 ≤ c.toNat ∧ c.toNat ≤ 57 := by simpa [isDigitChar] using hc
  have hplus : c ≠ '+' := char_ne_of_toNat_ne (by rw [show ('+').toNat = 43 from rfl]; omega)
  have hminus : c ≠ '-' := char_ne_of_toNat_ne (by rw [show ('-').toNat = 45 from rfl]; omega)
  have hstrip : pyStrip (c :: rest) = c :: rest :=
    pyStrip_eq_self (fun d hd => digit_not_space (h d hd))
  rw [pyInt, hstrip]
  simp only [if_neg hplus, if_neg hminus, pyIntStart, if_pos hc]
  rw [pyIntDigits_of_digits (fun d hd => h d (List.mem_cons_of_mem c hd))]
  simp [digitsVal]

theorem strContains_iff {hay needle : List Char} :
    strContains hay needle = true ↔ needle <:+: hay := by
  induction hay with
  | nil =>
    simp only [strContains, List.isEmpty_iff, List.infix_nil]
  | cons a t ih =>
    simp only [strContains, Bool.or_eq_true, List.isPrefixOf_iff_prefix, ih]
    exact (List.infix_cons_iff).symm

theorem chromBody_chars {l : List Char} (h : chromBody l = true) :
    ∀ d ∈ l, goodLower d = true := by
  match l with
  | [] => exact absurd h (by decide)
  | [a] =>
    intro d hd
    simp only [List.mem_singleton] at hd
    subst hd
    simp only [chromBody, Bool.or_eq_true, Bool.and_eq_true, decide_eq_true_eq] at h
    rcases h with ((⟨h1, h2⟩ | e) | e) | e
    · simp only [goodLower, Bool.or_eq_true, Bool.and_eq_true, decide_eq_true_eq]
      refine Or.inl (Or.inl (Or.inl (Or.inl (Or.inl (Or.inl (Or.inl ⟨?_, ?_⟩)))))) <;> omega
    · subst e; decide
    · subst e; decide
    · subst e; decide
  | [a, b] =>
    intro d hd
    simp only [chromBody, isDigitChar, Bool.or_eq_true, Bool.and_eq_true,
      decide_eq_true_eq] at h
    simp only [List.mem_cons, List.mem_singleton, List.not_mem_nil, or_false] at hd
    rcases hd with rfl | rfl
    · rcases h with (⟨e, _⟩ | ⟨⟨e, _⟩, _⟩) | ⟨e, _⟩ <;> subst e <;> decide
    · rcases h with (⟨_, h1, h2⟩ | ⟨⟨_, h1⟩, h2⟩) | ⟨_, e⟩
      · simp only [goodLower, Bool.or_eq_true, Bool.and_eq_true, decide_eq_true_eq]
        refine Or.inl (Or.inl (Or.inl (Or.inl (Or.inl (Or.inl (Or.inl ⟨?_, ?_⟩)))))) <;> omega
      · simp only [goodLower, Bool.or_eq_true, Bool.and_eq_true, decide_eq_true_eq]
        refine Or.inl (Or.inl (Or.inl (Or.inl (Or.inl (Or.inl (Or.inl ⟨?_, ?_⟩)))))) <;> omega
      · subst e; decide
  | a :: b :: c :: rest =>
    exact absurd h (by simp [chromBody])

theorem chromRegexMatch_ne_nil {l : List Char} (h : chromRegexMatch l = true) :
    l ≠ [] := by
  intro e
  subst e
  exact absurd h (by decide)

theorem chromRegexMatch_lower_chars {l : List Char} (h : chromRegexMatch l = true) :
    ∀ d ∈ pyLower l, goodLower d = true := by
  simp only [chromRegexMatch, Bool.or_eq_true, Bool.and_eq_true, beq_iff_eq] at h
  rcases h with h | ⟨h3, hb⟩
  · exact chromBody_chars h
  · intro d hd
    rw [← List.take_append_drop 3 (pyLower l)] at hd
    rcases List.mem_append.mp hd with hd | hd
    · rw [h3] at hd
      simp only [List.mem_cons, List.not_mem_nil, or_false] at hd
      rcases hd with rfl | rfl | rfl <;> decide
    · exact chromBody_chars hb d hd

theorem goodLower_orig {c : Char} (h : goodLower (Char.toLower c) = true) :
    pyIsSpace c = false ∧ c ≠ ':' := by
  constructor
  · cases e : pyIsSpace c
    · rfl
    · exfalso
      simp only [pyIsSpace, Bool.or_eq_true, decide_eq_true_eq] at e
      rcases e with ((((e | e) | e) | e) | e) | e <;> subst e <;> exact absurd h (by decide)
  · intro e
    subst e
    exact absurd h (by decide)

theorem chromRegexMatch_chars {l : List Char} (h : chromRegexMatch l = true) :
    ∀ c ∈ l, pyIsSpace c = false ∧ c ≠ ':' := by
  intro c hc
  exact goodLower_orig
    (chromRegexMatch_lower_chars h (Char.toLower c) (List.mem_map_of_mem Char.toLower hc))

theorem chromBody_take_ne {l : List Char} (h : chromBody l = true) :
    l.take 3 ≠ ['c', 'h', 'r'] := by
  match l with
  | [] => exact absurd h (by decide)
  | [a] => simp
  | [a, b] => simp
  | a :: b :: c :: rest => exact absurd h (by simp [chromBody])

theorem normalizeChrom_single {c : List Char} (h : chromRegexMatch c = true) :
    singleChrPrefix (normalizeChrom c) := by
  unfold normalizeChrom
  by_cases hp : (['c', 'h', 'r'] : List Char).isPrefixOf (pyLower c) = true
  · rw [if_pos hp]
    obtain ⟨t, ht⟩ := List.isPrefixOf_iff_prefix.mp hp
    simp only [chromRegexMatch, Bool.or_eq_true, Bool.and_eq_true, beq_iff_eq] at h
    rcases h with h | ⟨h3, hb⟩
    · rw [← ht] at h
      exact absurd h (by simp [chromBody])
    · constructor
      · exact h3
      · have hdrop : (pyLower c).drop 3 = t := by rw [← ht]; rfl
        rw [hdrop]
        rw [← ht] at hb
        exact chromBody_take_ne (by simpa using hb)
  · rw [if_neg hp]
    have hlow : pyLower ('c' :: 'h' :: 'r' :: c) = 'c' :: 'h' :: 'r' :: pyLower c := rfl
    constructor
    · rw [hlow]; rfl
    · rw [hlow]
      intro e
      have : (pyLower c).take 3 = ['c', 'h', 'r'] := by simpa using e
      exact hp (List.isPrefixOf_iff_prefix.mpr (this ▸ List.take_prefix 3 (pyLower c)))

theorem digit_char_ne {c : Char} (h : isDigitChar c = true) :
    c ≠ ':' ∧ c ≠ '-' ∧ c ≠ ',' ∧ c ≠ ' ' ∧ c ≠ '>' := by
  have hb : 48 ≤ c.toNat ∧ c.toNat ≤ 57 := by simpa [isDigitChar] using h
  refine ⟨char_ne_of_toNat_ne ?_, char_ne_of_toNat_ne ?_, char_ne_of_toNat_ne ?_,
    char_ne_of_toNat_ne ?_, char_ne_of_toNat_ne ?_⟩
  · rw [show (':').toNat = 58 from rfl]; omega
  · rw [show ('-').toNat = 45 from rfl]; omega
  · rw [show (',').toNat = 44 from rfl]; omega
  · rw [show (' ').toNat = 32 from rfl]; omega
  · rw [show ('>').toNat = 62 from rfl]; omega

theorem cleanNum_digits {l : List Char} (h : ∀ c ∈ l, isDigitChar c = true) :
    cleanNum l = l := by
  have h1 : List.filter (fun d => decide (d ≠ ',')) l = l :=
    List.filter_eq_self.mpr (fun c hc => by
      simp only [decide_eq_true_eq]
      exact (digit_char_ne (h c hc)).2.2.1)
  have h2 : List.filter (fun d => decide (d ≠ ' ')) l = l :=
    List.filter_eq_self.mpr (fun c hc => by
      simp only [decide_eq_true_eq]
      exact (digit_char_ne (h c hc)).2.2.2.1)
  unfold cleanNum pyRemoveChar
  rw [pyStrip_eq_self (fun c hc => digit_not_space (h c hc)), h1, h2]

theorem validate_interval_reduce
    {chrom ds de : List Char}
    (hc : chromRegexMatch chrom = true)
    (hds : ds ≠ []) (hdsd : ∀ c ∈ ds, isDigitChar c = true)
    (hde : de ≠ []) (hded : ∀ c ∈ de, isDigitChar c = true) :
    validate_interval (chrom ++ ':' :: (ds ++ '-' :: de)) =
      checkCoordinates (normalizeChrom chrom) (Int.ofNat (digitsVal ds))
        (Int.ofNat (digitsVal de)) := by
  have hchrom := chromRegexMatch_chars hc
  have hne : chrom ≠ [] := chromRegexMatch_ne_nil hc
  have hnospace : ∀ c ∈ chrom ++ ':' :: (ds ++ '-' :: de), pyIsSpace c = false := by
    intro c hcm
    rcases List.mem_append.mp hcm with hm | hm
    · exact (hchrom c hm).1
    · rcases List.mem_cons.mp hm with rfl | hm
      · decide
      · rcases List.mem_append.mp hm with hm | hm
        · exact digit_not_space (hdsd c hm)
        · rcases List.mem_cons.mp hm with rfl | hm
          · decide
          · exact digit_not_space (hded c hm)
  have hstrip : pyStrip (chrom ++ ':' :: (ds ++ '-' :: de)) = chrom ++ ':' :: (ds ++ '-' :: de) :=
    pyStrip_eq_self hnospace
  have hiseF : (chrom ++ ':' :: (ds ++ '-' :: de)).isEmpty = false := by
    cases chrom <;> rfl
  have hcont1 : pyContains (chrom ++ ':' :: (ds ++ '-' :: de)) ':' = true := by
    simp only [pyContains, List.any_eq_true, decide_eq_true_eq]
    exact ⟨':', by simp, rfl⟩
  have hcont2 : pyContains (chrom ++ ':' :: (ds ++ '-' :: de)) '-' = true := by
    simp only [pyContains, List.any_eq_true, decide_eq_true_eq]
    exact ⟨'-', by simp, rfl⟩
  have hsplit1 : splitOn ':' (chrom ++ ':' :: (ds ++ '-' :: de)) = [chrom, ds ++ '-' :: de] := by
    rw [splitOn_append (fun c hm => (hchrom c hm).2)]
    rw [splitOn_of_forall_ne (fun c hm => ?_)]
    rcases List.mem_append.mp hm with hm | hm
    · exact (digit_char_ne (hdsd c hm)).1
    · rcases List.mem_cons.mp hm with rfl | hm
      · decide
      · exact (digit_char_ne (hded c hm)).1
  have hcont3 : pyContains (ds ++ '-' :: de) '-' = true := by
    simp only [pyContains, List.any_eq_true, decide_eq_true_eq]
    exact ⟨'-', by simp, rfl⟩
  have hsplit2 : splitOn '-' (ds ++ '-' :: de) = [ds, de] := by
    rw [splitOn_append (fun c hm => (digit_char_ne (hdsd c hm)).2.1)]
    rw [splitOn_of_forall_ne (fun c hm => (digit_char_ne (hded c hm)).2.1)]
  have hstripc : pyStrip chrom = chrom := pyStrip_eq_self (fun c hm => (hchrom c hm).1)
  have hcef : chrom.isEmpty = false := by
    cases chrom with
    | nil => exact absurd rfl hne
    | cons a t => rfl
  have hint1 : pyInt (cleanNum ds) = some (Int.ofNat (digitsVal ds)) := by
    rw [cleanNum_digits hdsd]
    exact pyInt_of_digits hds hdsd
  have hint2 : pyInt (cleanNum de) = some (Int.ofNat (digitsVal de)) := by
    rw [cleanNum_digits hded]
    exact pyInt_of_digits hde hded
  simp only [validate_interval, hiseF, Bool.false_eq_true, if_false, hstrip, hcont1, hcont2,
    Bool.not_true, Bool.or_self, hsplit1, hcont3, hsplit2, hstripc, hcef, hc, hint1, hint2,
    if_true]

theorem checkCoordinates_ok {ch : List Char} {S E : Nat}
    (h1 : S < E) (h2 : 100 ≤ E - S) (h3 : E - S ≤ 2000000) (h4 : E ≤ 250000000) :
    checkCoordinates ch (Int.ofNat S) (Int.ofNat E) =
      (true,
       ("Valid interval ".data) ++ ch ++ (":".data) ++ commaInt (Int.ofNat S) ++ ("-".data)
         ++ commaInt (Int.ofNat E) ++ (" (".data) ++ commaInt (Int.ofNat E - Int.ofNat S)
         ++ (" bp)".data),
       some ⟨ch, Int.ofNat S, Int.ofNat E⟩) := by
  have c1 : ¬ (Int.ofNat S < 0) := by simp only [Int.ofNat_eq_natCast]; omega
  have c2 : ¬ (Int.ofNat E < 0) := by simp only [Int.ofNat_eq_natCast]; omega
  have c3 : ¬ (Int.ofNat E ≤ Int.ofNat S) := by simp only [Int.ofNat_eq_natCast]; omega
  have c4 : ¬ (Int.ofNat E - Int.ofNat S > 2000000) := by
    simp only [Int.ofNat_eq_natCast]; omega
  have c5 : ¬ (Int.ofNat E - Int.ofNat S < 100) := by
    simp only [Int.ofNat_eq_natCast]; omega
  have c6 : (decide (Int.ofNat S > 250000000) || decide (Int.ofNat E > 250000000)) = false := by
    simp only [Bool.or_eq_false_iff, decide_eq_false_iff_not]
    exact ⟨by simp only [Int.ofNat_eq_natCast]; omega, by simp only [Int.ofNat_eq_natCast]; omega⟩
  simp only [checkCoordinates, if_neg c1, if_neg c2, if_neg c3, if_neg c4, if_neg c5, c6,
    Bool.false_eq_true, if_false]

/-- **C1**: for every interval string `chr:S-E` whose chromosome token
matches the recognized set (1-22, X, Y, M/MT, with or without a `chr`
prefix, case-insensitively) and whose integer tokens satisfy
`0 ≤ S < E`, `100 ≤ E-S ≤ 2,000,000`, `S, E ≤ 250,000,000`,
`validate_interval` returns ok=true with an interval whose width is
exactly `E-S` and whose chromosome carries a single `chr` prefix. -/
theorem claim_C1
    (chrom ds de : List Char)
    (hc : chromRegexMatch chrom = true)
    (hds : ds ≠ []) (hdsd : ∀ c ∈ ds, isDigitChar c = true)
    (hde : de ≠ []) (hded : ∀ c ∈ de, isDigitChar c = true)
    (hlt : digitsVal ds < digitsVal de)
    (hw1 : 100 ≤ digitsVal de - digitsVal ds)
    (hw2 : digitsVal de - digitsVal ds ≤ 2000000)
    (_hS : digitsVal ds ≤ 250000000) (hE : digitsVal de ≤ 250000000) :
    (validate_interval (chrom ++ ':' :: (ds ++ '-' :: de))).1 = true ∧
    ∃ iv : GInterval,
      (validate_interval (chrom ++ ':' :: (ds ++ '-' :: de))).2.2 = some iv ∧
      iv.width = Int.ofNat (digitsVal de - digitsVal ds) ∧
      singleChrPrefix iv.chromosome := by
  rw [validate_interval_reduce hc hds hdsd hde hded, checkCoordinates_ok hlt hw1 hw2 hE]
  refine ⟨rfl, ⟨_, rfl, ?_, normalizeChrom_single hc⟩⟩
  simp only [GInterval.width, Int.ofNat_eq_natCast]
  omega

theorem claim_C1_witness :
    (validate_interval (("chr22".data) ++ ':' :: (("1000".data) ++ '-' :: ("2000".data)))).1 = true ∧
    ∃ iv : GInterval,
      (validate_interval (("chr22".data) ++ ':' :: (("1000".data) ++ '-' :: ("2000".data)))).2.2 = some iv ∧
      iv.width = Int.ofNat (digitsVal ("2000".data) - digitsVal ("1000".data)) ∧
      singleChrPrefix iv.chromosome :=
  claim_C1 ("chr22".data) ("1000".data) ("2000".data) (by decide) (by decide) (by decide)
    (by decide) (by decide) (by decide) (by decide) (by decide) (by decide) (by decide)

/-- **C6**: boundary behavior of validation: width exactly 100 and
exactly 2,000,000 are accepted; width 99 is rejected as too small;
width 2,000,001 is rejected as too large; end equal to start is
rejected; a variant position of 0 is rejected, and a position of
250,000,001 is rejected. -/
theorem claim_C6 :
    (validate_interval ("chr1:1000-1100".data)).1 = true ∧
    (validate_interval ("chr1:0-2000000".data)).1 = true ∧
    validate_interval ("chr1:1000-1099".data) =
      (false, ("Interval too small (99 bp). Minimum 100 base pairs required.".data), none) ∧
    validate_interval ("chr1:0-2000001".data) =
      (false, ("Interval too large (2,000,001 bp). Maximum 2,000,000 base pairs allowed. Try a smaller region for detailed analysis.".data), none) ∧
    (validate_interval ("chr1:1000-1000".data)).1 = false ∧
    validate_variant ("chr22:0:A>T".data) =
      (false, ("Position must be positive (1-based coordinate system)".data), none) ∧
    validate_variant ("chr22:250000001:A>T".data) =
      (false, ("Position too large (250,000,001). Maximum position is 250,000,000".data), none) := by
  refine ⟨rfl, rfl, ?_, ?_, rfl, ?_, ?_⟩ <;> decide

theorem dna_char_facts {c : Char} (h : c ∈ dnaValidChars) :
    pyIsSpace c = false ∧ c ≠ ':' ∧ c ≠ '>' ∧ Char.toUpper c = c ∧
      dnaValidChars.contains c = true := by
  simp only [dnaValidChars] at h
  fin_cases h <;> exact ⟨by decide, by decide, by decide, by decide, by decide⟩

theorem pyUpper_of_dna {l : List Char} (h : ∀ c ∈ l, c ∈ dnaValidChars) :
    pyUpper l = l := by
  unfold pyUpper
  calc l.map Char.toUpper = l.map id := List.map_congr_left
        (fun c hc => (dna_char_facts (h c hc)).2.2.2.1)
    _ = l := List.map_id l

theorem variantType_SNV_iff (ref alt : List Char) :
    variantType ref alt = ("SNV".data) ↔ (ref.length = 1 ∧ alt.length = 1) := by
  unfold variantType
  split_ifs with h1 h2 h3
  · simp only [Bool.and_eq_true, decide_eq_true_eq] at h1
    simp [h1]
  · simp only [Bool.and_eq_true, decide_eq_true_eq, not_and] at h1
    exact iff_of_false (by decide) (fun hcon => h1 hcon.1 hcon.2)
  · simp only [Bool.and_eq_true, decide_eq_true_eq, not_and] at h1
    exact iff_of_false (by decide) (fun hcon => h1 hcon.1 hcon.2)
  · simp only [Bool.and_eq_true, decide_eq_true_eq, not_and] at h1
    exact iff_of_false (by decide) (fun hcon => h1 hcon.1 hcon.2)

theorem variantType_deletion {ref alt : List Char} (h : alt.length < ref.length) :
    variantType ref alt = ("deletion".data) := by
  unfold variantType
  have h1 : ¬ ((ref.length = 1 && alt.length = 1) = true) := by
    simp only [Bool.and_eq_true, decide_eq_true_eq, not_and]
    omega
  rw [if_neg h1, if_pos (show ref.length > alt.length from h)]

theorem variantType_insertion {ref alt : List Char} (h : ref.length < alt.length) :
    variantType ref alt = ("insertion".data) := by
  unfold variantType
  have h1 : ¬ ((ref.length = 1 && alt.length = 1) = true) := by
    simp only [Bool.and_eq_true, decide_eq_true_eq, not_and]
    omega
  rw [if_neg h1, if_neg (show ¬ ref.length > alt.length by omega),
    if_pos (show ref.length < alt.length from h)]

theorem variantType_complex {ref alt : List Char} (he : ref.length = alt.length)
    (h : 1 < ref.length) : variantType ref alt = ("complex".data) := by
  unfold variantType
  have h1 : ¬ ((ref.length = 1 && alt.length = 1) = true) := by
    simp only [Bool.and_eq_true, decide_eq_true_eq, not_and]
    omega
  rw [if_neg h1, if_neg (show ¬ ref.length > alt.length by omega),
    if_neg (show ¬ ref.length < alt.length by omega)]

theorem validate_variant_reduce
    {chrom dp ref alt : List Char}
    (hc : chromRegexMatch chrom = true)
    (hdp : dp ≠ []) (hdpd : ∀ c ∈ dp, isDigitChar c = true)
    (hpos1 : 1 ≤ digitsVal dp) (hpos2 : digitsVal dp ≤ 250000000)
    (href : ref ≠ []) (hrefc : ∀ c ∈ ref, c ∈ dnaValidChars)
    (halt : alt ≠ []) (haltc : ∀ c ∈ alt, c ∈ dnaValidChars)
    (hlr : ref.length ≤ 100) (hla : alt.length ≤ 100) :
    validate_variant (chrom ++ ':' :: (dp ++ ':' :: (ref ++ '>' :: alt))) =
      (true,
       ("Valid ".data) ++ variantType ref alt ++ (": ".data) ++ normalizeChrom chrom
         ++ (":".data) ++ commaInt (Int.ofNat (digitsVal dp)) ++ (":".data) ++ ref
         ++ (">".data) ++ alt,
       some ⟨normalizeChrom chrom, Int.ofNat (digitsVal dp), ref, alt⟩) := by
  have hchrom := chromRegexMatch_chars hc
  have hne : chrom ≠ [] := chromRegexMatch_ne_nil hc
  have hnosp : ∀ c ∈ chrom ++ ':' :: (dp ++ ':' :: (ref ++ '>' :: alt)), pyIsSpace c = false := by
    intro c hcm
    rcases List.mem_append.mp hcm with hm | hm
    · exact (hchrom c hm).1
    · rcases List.mem_cons.mp hm with rfl | hm
      · decide
      · rcases List.mem_append.mp hm with hm | hm
        · exact digit_not_space (hdpd c hm)
        · rcases List.mem_cons.mp hm with rfl | hm
          · decide
          · rcases List.mem_append.mp hm with hm | hm
            · exact (dna_char_facts (hrefc c hm)).1
            · rcases List.mem_cons.mp hm with rfl | hm
              · decide
              · exact (dna_char_facts (haltc c hm)).1
  have hstrip := pyStrip_eq_self hnosp
  have hiseF : (chrom ++ ':' :: (dp ++ ':' :: (ref ++ '>' :: alt))).isEmpty = false := by
    cases chrom <;> rfl
  have hcont1 : pyContains (chrom ++ ':' :: (dp ++ ':' :: (ref ++ '>' :: alt))) ':' = true := by
    simp only [pyContains, List.any_eq_true, decide_eq_true_eq]
    exact ⟨':', by simp, rfl⟩
  have hcont2 : pyContains (chrom ++ ':' :: (dp ++ ':' :: (ref ++ '>' :: alt))) '>' = true := by
    simp only [pyContains, List.any_eq_true, decide_eq_true_eq]
    exact ⟨'>', by simp, rfl⟩
  have hsplit : splitOn ':' (chrom ++ ':' :: (dp ++ ':' :: (ref ++ '>' :: alt))) =
      [chrom, dp, ref ++ '>' :: alt] := by
    rw [splitOn_append (fun c hm => (hchrom c hm).2)]
    rw [splitOn_append (fun c hm => (digit_char_ne (hdpd c hm)).1)]
    rw [splitOn_of_forall_ne (fun c hm => ?_)]
    rcases List.mem_append.mp hm with hm | hm
    · exact (dna_char_facts (hrefc c hm)).2.1
    · rcases List.mem_cons.mp hm with rfl | hm
      · decide
      · exact (dna_char_facts (haltc c hm)).2.1
  have hstripc : pyStrip chrom = chrom := pyStrip_eq_self (fun c hm => (hchrom c hm).1)
  have hcef : chrom.isEmpty = false := by
    cases chrom with
    | nil => exact absurd rfl hne
    | cons a t => rfl
  have hstripdp : pyStrip dp = dp :=
    pyStrip_eq_self (fun c hm => digit_not_space (hdpd c hm))
  have hstripal : pyStrip (ref ++ '>' :: alt) = ref ++ '>' :: alt := by
    refine pyStrip_eq_self (fun c hm => ?_)
    rcases List.mem_append.mp hm with hm | hm
    · exact (dna_char_facts (hrefc c hm)).1
    · rcases List.mem_cons.mp hm with rfl | hm
      · decide
      · exact (dna_char_facts (haltc c hm)).1
  have hfilters : pyRemoveChar ' ' (pyRemoveChar ',' dp) = dp := by
    unfold pyRemoveChar
    have h1 : List.filter (fun d => decide (d ≠ ',')) dp = dp :=
      List.filter_eq_self.mpr (fun c hc => by
        simp only [decide_eq_true_eq]
        exact (digit_char_ne (hdpd c hc)).2.2.1)
    have h2 : List.filter (fun d => decide (d ≠ ' ')) dp = dp :=
      List.filter_eq_self.mpr (fun c hc => by
        simp only [decide_eq_true_eq]
        exact (digit_char_ne (hdpd c hc)).2.2.2.1)
    rw [h1, h2]
  have hint : pyInt dp = some (Int.ofNat (digitsVal dp)) := pyInt_of_digits hdp hdpd
  have hposneg : ¬ (Int.ofNat (digitsVal dp) < 1) := by
    simp only [Int.ofNat_eq_natCast]; omega
  have hposbig : ¬ (Int.ofNat (digitsVal dp) > 250000000) := by
    simp only [Int.ofNat_eq_natCast]; omega
  have hcontg : pyContains (ref ++ '>' :: alt) '>' = true := by
    simp only [pyContains, List.any_eq_true, decide_eq_true_eq]
    exact ⟨'>', by simp, rfl⟩
  have hsplitg : splitFirst '>' (ref ++ '>' :: alt) = [ref, alt] :=
    splitFirst_append (fun c hm => (dna_char_facts (hrefc c hm)).2.2.1)
  have hstripref : pyStrip ref = ref :=
    pyStrip_eq_self (fun c hm => (dna_char_facts (hrefc c hm)).1)
  have hstripalt : pyStrip alt = alt :=
    pyStrip_eq_self (fun c hm => (dna_char_facts (haltc c hm)).1)
  have hupref : pyUpper ref = ref := pyUpper_of_dna hrefc
  have hupalt : pyUpper alt = alt := pyUpper_of_dna haltc
  have hrefE : ref.isEmpty = false := by
    cases ref with
    | nil => exact absurd rfl href
    | cons a t => rfl
  have haltE : alt.isEmpty = false := by
    cases alt with
    | nil => exact absurd rfl halt
    | cons a t => rfl
  have hfilref : ref.filter (fun c => !(dnaValidChars.contains c)) = [] :=
    List.filter_eq_nil_iff.mpr (fun c hc => by
      simp only [(dna_char_facts (hrefc c hc)).2.2.2.2, Bool.not_true, Bool.false_eq_true,
        not_false_eq_true])
  have hfilalt : alt.filter (fun c => !(dnaValidChars.contains c)) = [] :=
    List.filter_eq_nil_iff.mpr (fun c hc => by
      simp only [(dna_char_facts (haltc c hc)).2.2.2.2, Bool.not_true, Bool.false_eq_true,
        not_false_eq_true])
  have hlen : (decide (ref.length > 100) || decide (alt.length > 100)) = false := by
    simp only [Bool.or_eq_false_iff, decide_eq_false_iff_not]
    exact ⟨by omega, by omega⟩
  simp only [validate_variant, variantPosition, variantAlleles, variantAlleleChecks, hiseF,
    Bool.false_eq_true, if_false, hstrip, hcont1, hcont2,
    Bool.not_true, Bool.or_self, hsplit, List.isEmpty_nil, if_true, hstripc, hstripdp,
    hstripal, hcef, hc, hfilters, hint, if_neg hposneg, if_neg hposbig, hcontg, hsplitg,
    hstripref, hstripalt, hupref, hupalt, hrefE, haltE, hfilref, hfilalt, List.isEmpty_nil,
    Bool.not_false, hlen]

/-- **C2**: for every variant string `chr:P:REF>ALT` with a recognized
chromosome token, `P` a positive integer at most 250,000,000, and REF
and ALT non-empty strings over `{A,C,G,T,N}` of length at most 100,
`validate_variant` returns ok=true, the success message reports the
computed classification, and that classification is SNV iff both
alleles have length 1, deletion when REF is longer, insertion when ALT
is longer, and complex when both have equal length greater than 1. -/
theorem claim_C2
    (chrom dp ref alt : List Char)
    (hc : chromRegexMatch chrom = true)
    (hdp : dp ≠ []) (hdpd : ∀ c ∈ dp, isDigitChar c = true)
    (hpos1 : 1 ≤ digitsVal dp) (hpos2 : digitsVal dp ≤ 250000000)
    (href : ref ≠ []) (hrefc : ∀ c ∈ ref, c ∈ dnaValidChars)
    (halt : alt ≠ []) (haltc : ∀ c ∈ alt, c ∈ dnaValidChars)
    (hlr : ref.length ≤ 100) (hla : alt.length ≤ 100) :
    (validate_variant (chrom ++ ':' :: (dp ++ ':' :: (ref ++ '>' :: alt)))).1 = true ∧
    (validate_variant (chrom ++ ':' :: (dp ++ ':' :: (ref ++ '>' :: alt)))).2.2 =
      some ⟨normalizeChrom chrom, Int.ofNat (digitsVal dp), ref, alt⟩ ∧
    (validate_variant (chrom ++ ':' :: (dp ++ ':' :: (ref ++ '>' :: alt)))).2.1 =
      ("Valid ".data) ++ variantType ref alt ++ (": ".data) ++ normalizeChrom chrom
        ++ (":".data) ++ commaInt (Int.ofNat (digitsVal dp)) ++ (":".data) ++ ref
        ++ (">".data) ++ alt ∧
    (variantType ref alt = ("SNV".data) ↔ (ref.length = 1 ∧ alt.length = 1)) ∧
    (alt.length < ref.length → variantType ref alt = ("deletion".data)) ∧
    (ref.length < alt.length → variantType ref alt = ("insertion".data)) ∧
    (ref.length = alt.length → 1 < ref.length → variantType ref alt = ("complex".data)) := by
  rw [validate_variant_reduce hc hdp hdpd hpos1 hpos2 href hrefc halt haltc hlr hla]
  exact ⟨rfl, rfl, rfl, variantType_SNV_iff ref alt,
    fun h => variantType_deletion h, fun h => variantType_insertion h,
    fun he h => variantType_complex he h⟩

theorem claim_C2_witness :
    (validate_variant (("chr22".data) ++ ':' :: (("36201698".data) ++ ':' :: (("A".data) ++ '>' :: ("C".data))))).1 = true ∧
    (validate_variant (("chr22".data) ++ ':' :: (("36201698".data) ++ ':' :: (("A".data) ++ '>' :: ("C".data))))).2.2 =
      some ⟨normalizeChrom ("chr22".data), Int.ofNat (digitsVal ("36201698".data)), ("A".data), ("C".data)⟩ ∧
    (validate_variant (("chr22".data) ++ ':' :: (("36201698".data) ++ ':' :: (("A".data) ++ '>' :: ("C".data))))).2.1 =
      ("Valid ".data) ++ variantType ("A".data) ("C".data) ++ (": ".data) ++ normalizeChrom ("chr22".data)
        ++ (":".data) ++ commaInt (Int.ofNat (digitsVal ("36201698".data))) ++ (":".data) ++ ("A".data)
        ++ (">".data) ++ ("C".data) ∧
    (variantType ("A".data) ("C".data) = ("SNV".data) ↔
      (("A".data).length = 1 ∧ ("C".data).length = 1)) ∧
    (("C".data).length < ("A".data).length → variantType ("A".data) ("C".data) = ("deletion".data)) ∧
    (("A".data).length < ("C".data).length → variantType ("A".data) ("C".data) = ("insertion".data)) ∧
    (("A".data).length = ("C".data).length → 1 < ("A".data).length →
      variantType ("A".data) ("C".data) = ("complex".data)) :=
  claim_C2 ("chr22".data) ("36201698".data) ("A".data) ("C".data) (by decide) (by decide)
    (by decide) (by decide) (by decide) (by decide) (by decide) (by decide) (by decide)
    (by decide) (by decide)

theorem strContains_eq_true {e p : List Char} (h : p <:+: e) : strContains e p = true :=
  strContains_iff.mpr h

theorem strContains_eq_false {e p : List Char} (h : ¬ p <:+: e) : strContains e p = false :=
  Bool.eq_false_iff.mpr (fun hc => h (strContains_iff.mp hc))

theorem bool_ne_true {b : Bool} (h : b = false) : ¬ (b = true) := by
  rw [h]
  exact Bool.false_ne_true

/-- **C3** (counterexample): the claim says the markers are matched
against the lower-cased error text, so the text `permission_denied`
would have to classify as an authentication error; the source matches
`"PERMISSION_DENIED" in error_str` against the raw text, so
`permission_denied` falls through to the generic category. -/
theorem claim_C3_counterexample :
    handle_api_error ("permission_denied".data) =
      apiErrorPrefix ++ ("permission_denied".data) ∧
    handle_api_error ("permission_denied".data) ≠ authErrorMsg := by
  exact ⟨by decide, by decide⟩

/-- **C3** (amended): the error classifier checks its rules in the fixed
order authentication, quota, bad-request, availability, timeout,
resource, generic, with the first matching rule winning; every marker is
matched case-sensitively (upper-case) against the RAW error text, except
`timeout`, which is matched against the lower-cased text; bad-request
and generic messages echo the raw text. -/
theorem claim_C3_amended (e : List Char) :
    (authMarker e → handle_api_error e = authErrorMsg) ∧
    (¬ authMarker e → quotaMarker e → handle_api_error e = quotaErrorMsg) ∧
    (¬ authMarker e → ¬ quotaMarker e → invalidMarker e →
      handle_api_error e = invalidRequestPrefix ++ e) ∧
    (¬ authMarker e → ¬ quotaMarker e → ¬ invalidMarker e → unavailMarker e →
      handle_api_error e = unavailableMsg) ∧
    (¬ authMarker e → ¬ quotaMarker e → ¬ invalidMarker e → ¬ unavailMarker e →
      timeoutMarker e → handle_api_error e = timeoutErrorMsg) ∧
    (¬ authMarker e → ¬ quotaMarker e → ¬ invalidMarker e → ¬ unavailMarker e →
      ¬ timeoutMarker e → resourceMarker e → handle_api_error e = resourceMsg) ∧
    (¬ authMarker e → ¬ quotaMarker e → ¬ invalidMarker e → ¬ unavailMarker e →
      ¬ timeoutMarker e → ¬ resourceMarker e →
      handle_api_error e = apiErrorPrefix ++ e) := by
  have hor : ∀ {p q : List Char}, (p <:+: e ∨ q <:+: e) →
      (strContains e p || strContains e q) = true := by
    intro p q h
    rcases h with h | h
    · rw [strContains_eq_true h]
      exact Bool.true_or _
    · rw [strContains_eq_true h]
      exact Bool.or_true _
  have hnor : ∀ {p q : List Char}, ¬ (p <:+: e ∨ q <:+: e) →
      (strContains e p || strContains e q) = false := by
    intro p q h
    rw [strContains_eq_false (fun x => h (Or.inl x)),
      strContains_eq_false (fun x => h (Or.inr x))]
    rfl
  have htor : ∀ {p q : List Char}, (p <:+: e ∨ q <:+: pyLower e) →
      (strContains e p || strContains (pyLower e) q) = true := by
    intro p q h
    rcases h with h | h
    · rw [strContains_eq_true h]
      exact Bool.true_or _
    · rw [strContains_eq_true h]
      exact Bool.or_true _
  have htnor : ∀ {p q : List Char}, ¬ (p <:+: e ∨ q <:+: pyLower e) →
      (strContains e p || strContains (pyLower e) q) = false := by
    intro p q h
    rw [strContains_eq_false (fun x => h (Or.inl x)),
      strContains_eq_false (fun x => h (Or.inr x))]
    rfl
  refine ⟨?_, ?_, ?_, ?_, ?_, ?_, ?_⟩
  · intro h1
    rw [handle_api_error, if_pos (hor h1)]
  · intro n1 h2
    rw [handle_api_error, if_neg (bool_ne_true (hnor n1)), if_pos (hor h2)]
  · intro n1 n2 h3
    rw [handle_api_error, if_neg (bool_ne_true (hnor n1)), if_neg (bool_ne_true (hnor n2)),
      if_pos (hor h3)]
  · intro n1 n2 n3 h4
    rw [handle_api_error, if_neg (bool_ne_true (hnor n1)), if_neg (bool_ne_true (hnor n2)),
      if_neg (bool_ne_true (hnor n3)), if_pos (hor h4)]
  · intro n1 n2 n3 n4 h5
    rw [handle_api_error, if_neg (bool_ne_true (hnor n1)), if_neg (bool_ne_true (hnor n2)),
      if_neg (bool_ne_true (hnor n3)), if_neg (bool_ne_true (hnor n4)),
      if_pos (htor h5)]
  · intro n1 n2 n3 n4 n5 h6
    rw [handle_api_error, if_neg (bool_ne_true (hnor n1)), if_neg (bool_ne_true (hnor n2)),
      if_neg (bool_ne_true (hnor n3)), if_neg (bool_ne_true (hnor n4)),
      if_neg (bool_ne_true (htnor n5)), if_pos (strContains_eq_true h6)]
  · intro n1 n2 n3 n4 n5 n6
    rw [handle_api_error, if_neg (bool_ne_true (hnor n1)), if_neg (bool_ne_true (hnor n2)),
      if_neg (bool_ne_true (hnor n3)), if_neg (bool_ne_true (hnor n4)),
      if_neg (bool_ne_true (htnor n5)),
      if_neg (bool_ne_true (strContains_eq_false n6))]

theorem not_infix_of_strContains {e p : List Char} (h : strContains e p = false) :
    ¬ (p <:+: e) :=
  fun hi => bool_ne_true h (strContains_eq_true hi)

theorem claim_C3_witness :
    handle_api_error ("401".data) = authErrorMsg ∧
    handle_api_error ("it broke".data) = apiErrorPrefix ++ ("it broke".data) :=
  ⟨(claim_C3_amended ("401".data)).1 (Or.inr List.infix_rfl),
   (claim_C3_amended ("it broke".data)).2.2.2.2.2.2
     (fun h => h.elim (not_infix_of_strContains (by decide)) (not_infix_of_strContains (by decide)))
     (fun h => h.elim (not_infix_of_strContains (by decide)) (not_infix_of_strContains (by decide)))
     (fun h => h.elim (not_infix_of_strContains (by decide)) (not_infix_of_strContains (by decide)))
     (fun h => h.elim (not_infix_of_strContains (by decide)) (not_infix_of_strContains (by decide)))
     (fun h => h.elim (not_infix_of_strContains (by decide)) (not_infix_of_strContains (by decide)))
     (not_infix_of_strContains (by decide))⟩

/-- **C4**: whenever the REST attempt returns success,
`predict_variant_hybrid` returns that REST response unchanged, and the
result does not depend on the SDK transport at all (the SDK is never
invoked: any secondary transport, over any result type, yields the same
output). -/
theorem claim_C4 {Data Time R : Type}
    (rest_response : APIResponse Data Time)
    (sdk_client : Option (SdkPredict R)) (mkSdkData : R → Data)
    (chromosome : List Char) (position : Int) (ref alt : List Char) (interval_size : Int)
    (h : rest_response.success = true) :
    predict_variant_hybrid rest_response sdk_client mkSdkData chromosome position ref alt
        interval_size = rest_response ∧
    ∀ (S : Type) (sdk' : Option (SdkPredict S)) (mk' : S → Data),
      predict_variant_hybrid rest_response sdk' mk' chromosome position ref alt
          interval_size = rest_response := by
  constructor
  · unfold predict_variant_hybrid
    rw [if_pos h]
  · intro S sdk' mk'
    unfold predict_variant_hybrid
    rw [if_pos h]

theorem claim_C4_witness :
    predict_variant_hybrid (⟨true, none, none, none, none⟩ : APIResponse Unit Unit)
        (some (fun _ _ _ _ => Except.ok ())) (fun _ => ()) ("chr1".data) 5 ("A".data)
        ("T".data) 100000 = (⟨true, none, none, none, none⟩ : APIResponse Unit Unit) :=
  (claim_C4 (⟨true, none, none, none, none⟩ : APIResponse Unit Unit)
    (some (fun _ _ _ _ => Except.ok ())) (fun _ => ()) ("chr1".data) 5 ("A".data)
    ("T".data) 100000 rfl).1

theorem predict_variant_hybrid_sdk_error {Data Time R : Type}
    (rest_response : APIResponse Data Time) (sdk : SdkPredict R) (mkSdkData : R → Data)
    (chromosome : List Char) (position : Int) (ref alt : List Char) (interval_size : Int)
    (e : List Char) (hfail : rest_response.success = false)
    (he : sdk (hybridInterval chromosome position interval_size)
        ⟨chromosome, position, ref, alt⟩ [("UBERON:0001157".data)] [("RNA_SEQ".data)] =
      Except.error e) :
    predict_variant_hybrid rest_response (some sdk) mkSdkData chromosome position ref alt
        interval_size =
      ⟨false, none,
       some (("Both REST API and SDK failed. REST: ".data) ++ optErrStr rest_response.error
         ++ ((", SDK: ".data) ++ e)), none, none⟩ := by
  simp only [predict_variant_hybrid, hfail, Bool.false_eq_true, if_false, he]

/-- **C5**: when the REST attempt fails and the SDK transport also
fails, the returned response has success=false and its error message
contains both the REST failure reason and the SDK failure reason; and
when the REST attempt fails and no SDK client is configured, the REST
failure response is returned unchanged. -/
theorem claim_C5 {Data Time R : Type}
    (rest_response : APIResponse Data Time) (sdk : SdkPredict R) (mkSdkData : R → Data)
    (chromosome : List Char) (position : Int) (ref alt : List Char) (interval_size : Int)
    (hfail : rest_response.success = false) :
    (∀ e : List Char,
      sdk (hybridInterval chromosome position interval_size)
          ⟨chromosome, position, ref, alt⟩ [("UBERON:0001157".data)] [("RNA_SEQ".data)] =
        Except.error e →
      (predict_variant_hybrid rest_response (some sdk) mkSdkData chromosome position ref alt
          interval_size).success = false ∧
      ∃ msg : List Char,
        (predict_variant_hybrid rest_response (some sdk) mkSdkData chromosome position ref alt
            interval_size).error = some msg ∧
        (∀ r, rest_response.error = some r → r <:+: msg) ∧ e <:+: msg) ∧
    predict_variant_hybrid rest_response (none : Option (SdkPredict R)) mkSdkData chromosome
        position ref alt interval_size = rest_response := by
  constructor
  · intro e he
    rw [predict_variant_hybrid_sdk_error rest_response sdk mkSdkData chromosome position
      ref alt interval_size e hfail he]
    refine ⟨rfl, _, rfl, fun r hr => ?_, ?_⟩
    · rw [hr]
      exact ⟨("Both REST API and SDK failed. REST: ".data), (", SDK: ".data) ++ e, by
        simp [optErrStr, List.append_assoc]⟩
    · exact ⟨("Both REST API and SDK failed. REST: ".data) ++ optErrStr rest_response.error
        ++ (", SDK: ".data), [], by simp [List.append_assoc]⟩
  · simp only [predict_variant_hybrid, hfail, Bool.false_eq_true, if_false]

theorem claim_C5_witness :
    ((predict_variant_hybrid (⟨false, none, some ("REST bad".data), none, none⟩ : APIResponse Unit Unit)
        (some (fun _ _ _ _ => Except.error ("SDK bad".data)) : Option (SdkPredict Unit))
        (fun _ => ()) ("chr1".data) 7 ("A".data) ("T".data) 100000).success = false ∧
     ∃ msg : List Char,
       (predict_variant_hybrid (⟨false, none, some ("REST bad".data), none, none⟩ : APIResponse Unit Unit)
           (some (fun _ _ _ _ => Except.error ("SDK bad".data)) : Option (SdkPredict Unit))
           (fun _ => ()) ("chr1".data) 7 ("A".data) ("T".data) 100000).error = some msg ∧
       (∀ r, (⟨false, none, some ("REST bad".data), none, none⟩ : APIResponse Unit Unit).error = some r →
         r <:+: msg) ∧ ("SDK bad".data) <:+: msg) ∧
    predict_variant_hybrid (⟨false, none, some ("REST bad".data), none, none⟩ : APIResponse Unit Unit)
        (none : Option (SdkPredict Unit)) (fun _ => ()) ("chr1".data) 7 ("A".data) ("T".data)
        100000 = (⟨false, none, some ("REST bad".data), none, none⟩ : APIResponse Unit Unit) :=
  ⟨(claim_C5 (⟨false, none, some ("REST bad".data), none, none⟩ : APIResponse Unit Unit)
      (fun _ _ _ _ => Except.error ("SDK bad".data)) (fun _ => ()) ("chr1".data) 7 ("A".data)
      ("T".data) 100000 rfl).1 ("SDK bad".data) rfl,
   (claim_C5 (⟨false, none, some ("REST bad".data), none, none⟩ : APIResponse Unit Unit)
      (fun _ _ _ _ => Except.error ("SDK bad".data)) (fun _ => ()) ("chr1".data) 7 ("A".data)
      ("T".data) 100000 rfl).2⟩

/-- **C10** (counterexample): the claim says that whenever
`position ≥ interval_size // 2 + 1` the constructed interval has width
`interval_size`; for the odd size 5 at position 100 the interval is
`[98, 102]` of width `4 = 2 * (5 // 2)`, not 5. -/
theorem claim_C10_counterexample :
    Int.fdiv 5 2 + 1 ≤ (100 : Int) ∧
    (hybridInterval ("chr1".data) 100 5).start = 100 - Int.fdiv 5 2 ∧
    (hybridInterval ("chr1".data) 100 5).stop = 100 + Int.fdiv 5 2 ∧
    (hybridInterval ("chr1".data) 100 5).width ≠ 5 := by
  exact ⟨by decide, by decide, by decide, by decide⟩

/-- **C10** (amended): in the SDK fallback the interval start is
`max(1, position - interval_size // 2)`, hence at least 1 (strictly
positive, never 0) for every position; whenever
`position ≥ interval_size // 2 + 1` the interval is exactly
`[position - interval_size // 2, position + interval_size // 2]`, whose
width is `2 * (interval_size // 2)` — equal to `interval_size` exactly
when `interval_size` is even. -/
theorem claim_C10_amended (chromosome : List Char) (position interval_size : Int)
    (_hpos : 0 < position) :
    1 ≤ (hybridInterval chromosome position interval_size).start ∧
    (Int.fdiv interval_size 2 + 1 ≤ position →
      (hybridInterval chromosome position interval_size).start
          = position - Int.fdiv interval_size 2 ∧
      (hybridInterval chromosome position interval_size).stop
          = position + Int.fdiv interval_size 2 ∧
      (hybridInterval chromosome position interval_size).width
          = 2 * Int.fdiv interval_size 2) ∧
    (interval_size % 2 = 0 → 2 * Int.fdiv interval_size 2 = interval_size) := by
  have hfd : Int.fdiv interval_size 2 = interval_size / 2 :=
    Int.fdiv_eq_ediv _ (by decide)
  unfold hybridInterval hybridStartPos hybridEndPos GInterval.width
  rw [hfd]
  refine ⟨le_max_left _ _, fun h => ?_, fun he => by omega⟩
  have hmax : max 1 (position - interval_size / 2) = position - interval_size / 2 :=
    max_eq_right (by omega)
  rw [hmax]
  exact ⟨rfl, rfl, by ring⟩

theorem claim_C10_witness :
    1 ≤ (hybridInterval ("chr12".data) 11223344 100000).start ∧
    (Int.fdiv 100000 2 + 1 ≤ (11223344 : Int) →
      (hybridInterval ("chr12".data) 11223344 100000).start
          = 11223344 - Int.fdiv 100000 2 ∧
      (hybridInterval ("chr12".data) 11223344 100000).stop
          = 11223344 + Int.fdiv 100000 2 ∧
      (hybridInterval ("chr12".data) 11223344 100000).width
          = 2 * Int.fdiv 100000 2) ∧
    ((100000 : Int) % 2 = 0 → 2 * Int.fdiv 100000 2 = 100000) :=
  claim_C10_amended ("chr12".data) 11223344 100000 (by decide)

theorem contains_iff_mem {l : List Char} {c : Char} : l.contains c = true ↔ c ∈ l :=
  List.elem_iff

/-- **C7**: `validate_dna_sequence` accepts exactly the strings that,
after removing all whitespace and upper-casing, are non-empty, draw only
on `{A,C,G,T,N}`, have length between 10 and 1,000,000, and have an
N-fraction of at most 50%; in particular `ATCG` is rejected as too short
and `ATCGATCGATCG` is accepted. -/
theorem claim_C7 :
    (∀ s : List Char,
      (validate_dna_sequence s).1 = true ↔
        ((pyStrip (pyUpper s)).filter (fun c => !(pyIsSpace c)) ≠ [] ∧
         (∀ c ∈ (pyStrip (pyUpper s)).filter (fun c => !(pyIsSpace c)), c ∈ dnaValidChars) ∧
         10 ≤ ((pyStrip (pyUpper s)).filter (fun c => !(pyIsSpace c))).length ∧
         ((pyStrip (pyUpper s)).filter (fun c => !(pyIsSpace c))).length ≤ 1000000 ∧
         2 * ((pyStrip (pyUpper s)).filter (fun c => !(pyIsSpace c))).count 'N' ≤
           ((pyStrip (pyUpper s)).filter (fun c => !(pyIsSpace c))).length)) ∧
    validate_dna_sequence ("ATCG".data) =
      (false, ("Sequence too short. Minimum 10 base pairs required.".data)) ∧
    (validate_dna_sequence ("ATCGATCGATCG".data)).1 = true := by
  refine ⟨fun s => ?_, by decide, by decide⟩
  simp only [validate_dna_sequence]
  generalize hT : (pyStrip (pyUpper s)).filter (fun c => !(pyIsSpace c)) = t
  split_ifs with h1 h2 h3 h4 h5 h6
  · refine iff_of_false (by simp) ?_
    rintro ⟨hne, -⟩
    have hs : s = [] := List.isEmpty_iff.mp h1
    subst hs
    exact hne (by rw [← hT]; rfl)
  · refine iff_of_false (by simp) ?_
    rintro ⟨hne, -⟩
    exact hne (List.isEmpty_iff.mp h2)
  · refine iff_of_false (by simp) ?_
    rintro ⟨-, hchars, -⟩
    have hfe : (t.filter (fun c => !(dnaValidChars.contains c))).isEmpty = false := by
      cases e : (t.filter (fun c => !(dnaValidChars.contains c))).isEmpty
      · rfl
      · rw [e] at h3
        exact absurd h3 (by decide)
    have hfne : t.filter (fun c => !(dnaValidChars.contains c)) ≠ [] := by
      intro e
      rw [e] at hfe
      simp at hfe
    obtain ⟨c, hcmem⟩ := List.exists_mem_of_ne_nil _ hfne
    have hc := List.mem_filter.mp hcmem
    have : dnaValidChars.contains c = false := by
      cases e : dnaValidChars.contains c
      · rfl
      · rw [e] at hc
        exact absurd hc.2 (by decide)
    exact absurd (contains_iff_mem.mpr (hchars c hc.1)) (bool_ne_true this)
  · refine iff_of_false (by simp) ?_
    rintro ⟨-, -, h10, -⟩
    omega
  · refine iff_of_false (by simp) ?_
    rintro ⟨-, -, -, hM, -⟩
    omega
  · refine iff_of_false (by simp) ?_
    rintro ⟨-, -, -, -, hN⟩
    omega
  · refine iff_of_true rfl ⟨?_, ?_, by omega, by omega, by omega⟩
    · intro e
      rw [e] at h2
      simp at h2
    · intro c hc
      by_contra hno
      have hcontains : dnaValidChars.contains c = false := by
        cases e : dnaValidChars.contains c
        · rfl
        · exact absurd (contains_iff_mem.mp e) hno
      have : c ∈ t.filter (fun d => !(dnaValidChars.contains d)) := by
        rw [List.mem_filter]
        exact ⟨hc, by rw [hcontains]; rfl⟩
      have hfe : t.filter (fun d => !(dnaValidChars.contains d)) = [] := by
        cases e : (t.filter (fun d => !(dnaValidChars.contains d))).isEmpty
        · rw [e] at h3
          exact absurd (by decide) h3
        · exact List.isEmpty_iff.mp e
      rw [hfe] at this
      exact absurd this (List.not_mem_nil c)

theorem append_ne_nil_left {a b : List Char} (h : a ≠ []) : a ++ b ≠ [] := by
  intro e
  rcases List.append_eq_nil.mp e with ⟨e1, -⟩
  exact h e1

theorem checkCoordinates_none_of_false (ch : List Char) (a b : Int) :
    (checkCoordinates ch a b).1 = false → (checkCoordinates ch a b).2.2 = none := by
  simp only [checkCoordinates]
  repeat' split
  all_goals first
    | (intro _; rfl)
    | (intro h; simp at h)

theorem validate_interval_none_of_false (s : List Char) :
    (validate_interval s).1 = false → (validate_interval s).2.2 = none := by
  simp only [validate_interval]
  repeat' split
  all_goals first
    | (intro _; rfl)
    | (exact checkCoordinates_none_of_false _ _ _)

theorem variantAlleleChecks_none_of_false (ch : List Char) (p : Int) (ref alt : List Char) :
    (variantAlleleChecks ch p ref alt).1 = false →
    (variantAlleleChecks ch p ref alt).2.2 = none := by
  simp only [variantAlleleChecks]
  repeat' split
  all_goals first
    | (intro _; rfl)
    | (intro h; simp at h)

theorem variantAlleles_none_of_false (ch : List Char) (p : Int) (al : List Char) :
    (variantAlleles ch p al).1 = false → (variantAlleles ch p al).2.2 = none := by
  simp only [variantAlleles]
  repeat' split
  all_goals first
    | (intro _; rfl)
    | (exact variantAlleleChecks_none_of_false _ _ _ _)

theorem variantPosition_none_of_false (ch ps al : List Char) :
    (variantPosition ch ps al).1 = false → (variantPosition ch ps al).2.2 = none := by
  simp only [variantPosition]
  repeat' split
  all_goals first
    | (intro _; rfl)
    | (exact variantAlleles_none_of_false _ _ _)

theorem validate_variant_none_of_false (s : List Char) :
    (validate_variant s).1 = false → (validate_variant s).2.2 = none := by
  simp only [validate_variant]
  repeat' split
  all_goals first
    | (intro _; rfl)
    | (exact variantPosition_none_of_false _ _ _)

/-- **C8** (counterexample): `validate_ontology_terms` on the mixed list
`["UBERON:0001157", "bogus"]` fails, yet the returned value component is
the non-empty list of the valid terms collected so far — not absent. -/
theorem claim_C8_counterexample :
    (validate_ontology_terms [("UBERON:0001157".data), ("bogus".data)]).1 = false ∧
    (validate_ontology_terms [("UBERON:0001157".data), ("bogus".data)]).2.2 =
      [("UBERON:0001157".data)] ∧
    (validate_ontology_terms [("UBERON:0001157".data), ("bogus".data)]).2.2 ≠ [] := by
  exact ⟨by decide, by decide, by decide⟩

/-- **C8** (amended): `validate_interval` and `validate_variant` carry
no value (`none`) whenever they fail; the list validators
(`validate_ontology_terms`, `validate_output_types`) instead return the
accumulated list of valid entries on failure, which can be non-empty. -/
theorem claim_C8_amended :
    (∀ s : List Char, (validate_interval s).1 = false → (validate_interval s).2.2 = none) ∧
    (∀ s : List Char, (validate_variant s).1 = false → (validate_variant s).2.2 = none) ∧
    ((validate_ontology_terms [("UBERON:0001157".data), ("bogus".data)]).1 = false ∧
     (validate_ontology_terms [("UBERON:0001157".data), ("bogus".data)]).2.2 =
       [("UBERON:0001157".data)]) ∧
    ((validate_output_types [("rna_seq".data), ("bogus".data)]).1 = false ∧
     (validate_output_types [("rna_seq".data), ("bogus".data)]).2.2 = [("RNA_SEQ".data)]) :=
  ⟨validate_interval_none_of_false, validate_variant_none_of_false,
   ⟨by decide, by decide⟩, ⟨by decide, by decide⟩⟩

theorem claim_C8_witness :
    (validate_interval ("chr1:1000-1000".data)).2.2 = none :=
  claim_C8_amended.1 ("chr1:1000-1000".data) (by decide)

theorem validate_api_key_msg_ne (s : List Char) : (validate_api_key s).2 ≠ [] := by
  simp only [validate_api_key]
  repeat' split
  all_goals first
    | decide
    | (repeat' (refine append_ne_nil_left ?_)
       decide)

theorem validate_dna_sequence_msg_ne (s : List Char) : (validate_dna_sequence s).2 ≠ [] := by
  simp only [validate_dna_sequence]
  repeat' split
  all_goals first
    | decide
    | (repeat' (refine append_ne_nil_left ?_)
       decide)

theorem checkCoordinates_msg_ne (ch : List Char) (a b : Int) :
    (checkCoordinates ch a b).2.1 ≠ [] := by
  simp only [checkCoordinates]
  repeat' split
  all_goals first
    | decide
    | (repeat' (refine append_ne_nil_left ?_)
       decide)

theorem validate_interval_msg_ne (s : List Char) : (validate_interval s).2.1 ≠ [] := by
  simp only [validate_interval]
  repeat' split
  all_goals first
    | decide
    | (repeat' (refine append_ne_nil_left ?_)
       decide)
    | exact checkCoordinates_msg_ne _ _ _

theorem variantAlleleChecks_msg_ne (ch : List Char) (p : Int) (ref alt : List Char) :
    (variantAlleleChecks ch p ref alt).2.1 ≠ [] := by
  simp only [variantAlleleChecks]
  repeat' split
  all_goals first
    | decide
    | (repeat' (refine append_ne_nil_left ?_)
       decide)

theorem variantAlleles_msg_ne (ch : List Char) (p : Int) (al : List Char) :
    (variantAlleles ch p al).2.1 ≠ [] := by
  simp only [variantAlleles]
  repeat' split
  all_goals first
    | decide
    | (repeat' (refine append_ne_nil_left ?_)
       decide)
    | exact variantAlleleChecks_msg_ne _ _ _ _

theorem variantPosition_msg_ne (ch ps al : List Char) :
    (variantPosition ch ps al).2.1 ≠ [] := by
  simp only [variantPosition]
  repeat' split
  all_goals first
    | decide
    | (repeat' (refine append_ne_nil_left ?_)
       decide)
    | exact variantAlleles_msg_ne _ _ _

theorem validate_variant_msg_ne (s : List Char) : (validate_variant s).2.1 ≠ [] := by
  simp only [validate_variant]
  repeat' split
  all_goals first
    | decide
    | (repeat' (refine append_ne_nil_left ?_)
       decide)
    | exact variantPosition_msg_ne _ _ _

/-- **C9**: each validator is a total function into an outcome tuple
(the embedding itself witnesses that no exception escapes): expected bad
input yields ok=false together with a non-empty message, and the
internal `int(...)` parsing exception (`ValueError`) is caught at the
validator boundary and converted to a failure outcome, as the two
concrete parse-failure inputs show. -/
theorem claim_C9 :
    (∀ s : List Char, (validate_api_key s).1 = false → (validate_api_key s).2 ≠ []) ∧
    (∀ s : List Char, (validate_dna_sequence s).1 = false → (validate_dna_sequence s).2 ≠ []) ∧
    (∀ s : List Char, (validate_interval s).1 = false → (validate_interval s).2.1 ≠ []) ∧
    (∀ s : List Char, (validate_variant s).1 = false → (validate_variant s).2.1 ≠ []) ∧
    validate_interval ("chr1:10a-2000".data) =
      (false, ("Invalid position format: ".data) ++ invalidLiteralMsg ("10a".data), none) ∧
    validate_variant ("chr22:x:A>T".data) =
      (false, ("Invalid position ".data) ++ apos :: (("x".data) ++ apos ::
        (". Must be a positive integer".data)), none) :=
  ⟨fun s _ => validate_api_key_msg_ne s, fun s _ => validate_dna_sequence_msg_ne s,
   fun s _ => validate_interval_msg_ne s, fun s _ => validate_variant_msg_ne s,
   by decide, by decide⟩

theorem claim_C9_witness :
    (validate_api_key ("short".data)).2 ≠ [] ∧
    (validate_dna_sequence ("xyz".data)).2 ≠ [] ∧
    (validate_interval ("nope".data)).2.1 ≠ [] ∧
    (validate_variant ("nope".data)).2.1 ≠ [] :=
  ⟨claim_C9.1 ("short".data) (by decide), claim_C9.2.1 ("xyz".data) (by decide),
   claim_C9.2.2.1 ("nope".data) (by decide), claim_C9.2.2.2.1 ("nope".data) (by decide)⟩

theorem claim_C7_witness :
    (validate_dna_sequence ("ATCGATCGATCG".data)).1 = true ∧
    ((pyStrip (pyUpper ("ATCGATCGATCG".data))).filter (fun c => !(pyIsSpace c)) ≠ [] ∧
     (∀ c ∈ (pyStrip (pyUpper ("ATCGATCGATCG".data))).filter (fun c => !(pyIsSpace c)),
        c ∈ dnaValidChars) ∧
     10 ≤ ((pyStrip (pyUpper ("ATCGATCGATCG".data))).filter (fun c => !(pyIsSpace c))).length ∧
     ((pyStrip (pyUpper ("ATCGATCGATCG".data))).filter (fun c => !(pyIsSpace c))).length ≤ 1000000 ∧
     2 * ((pyStrip (pyUpper ("ATCGATCGATCG".data))).filter (fun c => !(pyIsSpace c))).count 'N' ≤
       ((pyStrip (pyUpper ("ATCGATCGATCG".data))).filter (fun c => !(pyIsSpace c))).length) :=
  ⟨claim_C7.2.2, (claim_C7.1 ("ATCGATCGATCG".data)).mp claim_C7.2.2⟩
